import Mathlib

/-!
Shallow embedding of the OCR arbitration logic (`src/ocr_engine.py`) and the
image-classifier wrapper (`src/cnn_model.py`) of the product-recommendation
service, together with proofs of the specified properties.

Modelling conventions:
* Python strings are `List Char`; `str.strip()` is `pyStrip`, `str.lower()`
  maps `Char.toLower` over the characters, and `str.replace(a, b)` with a
  one-character pattern is a character map.
* Python floats are modelled as rationals `ℚ` (all constants involved —
  0.95, 0.8, 0.7, 0.5, confidences divided by 100 — are exactly
  representable).
* External calls that may raise are modelled by an `Except` parameter: the
  `.error` case is the call raising an exception (carrying `str(e)`), the
  `.ok` case is its returned payload.
-/

/-- Python `s.strip()`: drop whitespace from both ends. -/
def pyStrip (l : List Char) : List Char :=
  (l.dropWhile Char.isWhitespace).rdropWhile Char.isWhitespace

/-- Python `s.lower()` (ASCII case folding, per `Char.toLower`). -/
def pyLower (l : List Char) : List Char :=
  l.map Char.toLower

/-- Python `s.replace(a, b)` for one-character `a`, `b`. -/
def pyReplaceChar (a b : Char) (l : List Char) : List Char :=
  l.map fun c => if c = a then b else c

/-- The post-processing of `extract_text_with_fallback` (lines 117-121 of
`ocr_engine.py`): `result["extracted_text"].lower().strip()` followed by
`.replace("0","o").replace("1","l").replace("5","s")`. -/
def cleanText (t : List Char) : List Char :=
  pyReplaceChar '5' 's' (pyReplaceChar '1' 'l' (pyReplaceChar '0' 'o'
    (pyStrip (pyLower t))))

/-- The dict returned by the two OCR engine wrappers:
`{"text": ..., "confidence": ..., "error": ...}`. -/
structure OcrOut where
  text : List Char
  confidence : ℚ
  error : Option (List Char)
deriving DecidableEq

/-- `ocr_with_gemini` from `ocr_engine.py`. `apiKeySet` models whether the
module-level `GEMINI_API_KEY` is configured. `call` models the outcome of the
`try` body up to and including `response.text`: `.error e` is any raised
exception, `.ok none` is `response.text` being `None`, `.ok (some t)` is
`response.text` being the string `t`. -/
def ocr_with_gemini (apiKeySet : Bool)
    (call : Except (List Char) (Option (List Char))) : OcrOut :=
  if !apiKeySet then
    { text := [], confidence := 0, error := some "No API key".toList }
  else
    match call with
    | .error e => { text := [], confidence := 0, error := some e }
    | .ok respText =>
      let text : List Char :=
        match respText with
        | none => []
        | some t => if t = [] then [] else pyStrip t
      let confidence : ℚ := if 5 < text.length then 95/100 else 7/10
      { text := text, confidence := confidence, error := none }

/-- `ocr_with_tesseract` from `ocr_engine.py`. `call` models the outcome of
the `try` body up to `pytesseract.image_to_data`: `.error e` is any raised
exception, `.ok data` is the per-token list pairing `data["text"][i]` with
`int(data["conf"][i])`. -/
def ocr_with_tesseract
    (call : Except (List Char) (List (List Char × Int))) : OcrOut :=
  match call with
  | .error e => { text := [], confidence := 0, error := some e }
  | .ok data =>
    let kept : List (List Char × Int) := data.filterMap fun p =>
      let word := pyStrip p.1
      if 30 < p.2 ∧ word ≠ [] then some (word, p.2) else none
    let words := kept.map Prod.fst
    let confs := kept.map Prod.snd
    let text := List.intercalate [' '] words
    let avg_conf : ℚ :=
      if confs = [] then 0
      else (confs.map fun (c : Int) => (c : ℚ)).sum / confs.length
    { text := text, confidence := avg_conf / 100, error := none }

/-- The dict returned by `extract_text_with_fallback`. -/
structure ExtractResult where
  extracted_text : List Char
  cleaned_text : List Char
  confidence : ℚ
  ocr_source : String
  notes : String
deriving DecidableEq

/-- `extract_text_with_fallback` from `ocr_engine.py`, parameterised by the
configuration flag and the outcomes of the two external OCR calls. -/
def extract_text_with_fallback (apiKeySet : Bool)
    (geminiCall : Except (List Char) (Option (List Char)))
    (tessCall : Except (List Char) (List (List Char × Int))) : ExtractResult :=
  let result0 : ExtractResult :=
    { extracted_text := [], cleaned_text := [], confidence := 0,
      ocr_source := "none", notes := "" }
  let result1 : ExtractResult :=
    if apiKeySet then
      let gemini := ocr_with_gemini apiKeySet geminiCall
      if gemini.confidence ≥ 8/10 then
        { result0 with extracted_text := gemini.text, ocr_source := "gemini",
                       confidence := gemini.confidence }
      else if gemini.text ≠ [] then
        let tesseract := ocr_with_tesseract tessCall
        if tesseract.confidence > gemini.confidence then
          { result0 with extracted_text := tesseract.text,
                         ocr_source := "tesseract",
                         confidence := tesseract.confidence }
        else
          { result0 with extracted_text := gemini.text, ocr_source := "gemini",
                         confidence := gemini.confidence }
      else
        let tesseract := ocr_with_tesseract tessCall
        { result0 with extracted_text := tesseract.text,
                       ocr_source := "tesseract",
                       confidence := tesseract.confidence }
    else
      let tesseract := ocr_with_tesseract tessCall
      { result0 with extracted_text := tesseract.text,
                     ocr_source := "tesseract",
                     confidence := tesseract.confidence }
  let result2 : ExtractResult :=
    { result1 with cleaned_text := cleanText result1.extracted_text }
  if result2.confidence < 5/10 then
    { result2 with notes := "low_confidence: result may be inaccurate" }
  else
    result2

/-- `np.argmax` over a vector: index of the first occurrence of the maximum
(auxiliary recursion carrying the current index, best index and best value). -/
def argmaxAux : List ℚ → Nat → Nat → ℚ → Nat
  | [], _, best, _ => best
  | q :: qs, i, best, bestVal =>
    if bestVal < q then argmaxAux qs (i + 1) i q
    else argmaxAux qs (i + 1) best bestVal

/-- `np.argmax` on a non-empty vector (first index attaining the maximum). -/
def argmaxList : List ℚ → Nat
  | [] => 0
  | q :: qs => argmaxAux qs 1 0 q

/-- `np.max` over a vector. -/
def maxList : List ℚ → ℚ
  | [] => 0
  | q :: qs => qs.foldl max q

/-- `predict_stockcode_from_image` from `cnn_model.py`. `modelLoaded` and
`labelMap` model the lazily loaded `_model` and `_label_map` globals after
`load_resources()` (the label map is an association list from class id to
stock code). `inference` models the `try` body up to `preds[0]`: `.error e`
is any raised exception (bad image bytes, model failure), `.ok preds` is the
prediction vector. An empty prediction vector makes `np.argmax` raise, which
the `except` catches, so it is returned as the sentinel as well. -/
def predict_stockcode_from_image (modelLoaded : Bool)
    (labelMap : Option (List (Nat × String)))
    (inference : Except (List Char) (List ℚ)) : String × ℚ :=
  match modelLoaded, labelMap with
  | false, _ => ("ERROR", 0)
  | true, none => ("ERROR", 0)
  | true, some lm =>
    match inference with
    | .error _ => ("ERROR", 0)
    | .ok preds =>
      match preds with
      | [] => ("ERROR", 0)
      | q :: qs =>
        let pred_class_id := argmaxList (q :: qs)
        let confidence := maxList (q :: qs)
        let stock_code := (lm.lookup pred_class_id).getD "UNKNOWN"
        (stock_code, confidence)

/-- The single-character substitution table of the post-processing step,
as one function: '0' becomes 'o', '1' becomes 'l', '5' becomes 's'. -/
def rho (c : Char) : Char :=
  if c = '0' then 'o' else if c = '1' then 'l' else if c = '5' then 's' else c

/-- The tokens the spec (as amended) says survive the tesseract filter:
confidence strictly greater than 30 and non-empty text after stripping. -/
def survivingTokens (data : List (List Char × Int)) : List (List Char × Int) :=
  data.filter fun p => decide (30 < p.2 ∧ pyStrip p.1 ≠ [])

/-- Modelled from the spec: the confidence claim C3 ascribes to the local
engine, read literally — tokens are discarded exactly when their confidence
is below 30 or their (unstripped) text is empty, and the confidence is the
mean confidence of the survivors divided by 100, or 0 if none survive.
Kept separate from `ocr_with_tesseract` to compare the two. -/
def tesseractConfidenceClaimC3 (data : List (List Char × Int)) : ℚ :=
  let kept := data.filter fun p => decide (¬ p.2 < 30 ∧ p.1 ≠ [])
  if kept = [] then 0
  else ((kept.map fun (p : List Char × Int) => (p.2 : ℚ)).sum / kept.length) / 100

/-! ## Helper lemmas -/

/-- `cleanText` is the map of the substitution table over the stripped,
lowercased input. -/
theorem cleanText_eq (t : List Char) :
    cleanText t = (pyStrip (pyLower t)).map rho := by
  unfold cleanText pyReplaceChar
  rw [List.map_map, List.map_map]
  refine List.map_congr_left fun c _ => ?_
  unfold rho
  by_cases h0 : c = '0' <;> by_cases h1 : c = '1' <;> by_cases h5 : c = '5' <;>
    simp_all

/-- ASCII lower-casing is idempotent. -/
theorem toLower_toLower (c : Char) : c.toLower.toLower = c.toLower := by
  by_cases h : 65 ≤ c.toNat ∧ c.toNat ≤ 90
  · have h1 := h.1
    have h2 := h.2
    have hc : c = Char.ofNat c.toNat := (Char.ofNat_toNat c).symm
    rw [hc]
    set n := c.toNat with hn
    interval_cases n <;> decide
  · have hfix : c.toLower = c := by
      simp only [Char.toLower]
      rw [if_neg h]
    rw [hfix, hfix]

/-- A list whose head does not satisfy `p` is unchanged by `dropWhile p`. -/
theorem dropWhile_eq_self_of_head? {α : Type} (p : α → Bool) (l : List α)
    (h : ∀ a, l.head? = some a → ¬ p a = true) : l.dropWhile p = l := by
  cases l with
  | nil => rfl
  | cons a as =>
    rw [List.dropWhile_cons, if_neg (h a rfl)]

/-- Conversely, a list unchanged by `dropWhile p` has a head not satisfying
`p`. -/
theorem not_head?_of_dropWhile_eq_self {α : Type} (p : α → Bool) (l : List α)
    (hl : l.dropWhile p = l) : ∀ a, l.head? = some a → ¬ p a = true := by
  intro a ha hp
  cases l with
  | nil => simp at ha
  | cons b bs =>
    have hab : a = b := by simpa using ha.symm
    subst hab
    rw [List.dropWhile_cons, if_pos hp] at hl
    have hlen : (bs.dropWhile p).length ≤ bs.length :=
      (List.dropWhile_sublist p).length_le
    rw [hl] at hlen
    simp at hlen

/-- `rdropWhile p l` is an initial segment of `l`. -/
theorem rdropWhile_append_decomp {α : Type} (p : α → Bool) (l : List α) :
    ∃ t, l = l.rdropWhile p ++ t := by
  refine ⟨(l.reverse.takeWhile p).reverse, ?_⟩
  rw [List.rdropWhile, ← List.reverse_append, List.takeWhile_append_dropWhile,
    List.reverse_reverse]

/-- Dropping from the left is a no-op on `rdropWhile p m` whenever it already
is on `m`. -/
theorem dropWhile_rdropWhile_eq_self {α : Type} (p : α → Bool) (m : List α)
    (hm : m.dropWhile p = m) :
    (m.rdropWhile p).dropWhile p = m.rdropWhile p := by
  refine dropWhile_eq_self_of_head? p _ fun a ha => ?_
  obtain ⟨t, ht⟩ := rdropWhile_append_decomp p m
  have hhm : m.head? = some a := by
    rw [ht, List.head?_append, ha]
    rfl
  exact not_head?_of_dropWhile_eq_self p m hm a hhm

/-- Stripping whitespace from both ends is idempotent. -/
theorem pyStrip_idempotent (l : List Char) : pyStrip (pyStrip l) = pyStrip l := by
  unfold pyStrip
  rw [dropWhile_rdropWhile_eq_self _ _ (List.dropWhile_idempotent _ _),
    List.rdropWhile_idempotent]

/-- Stripping commutes with mapping a whitespace-preserving character
function. -/
theorem pyStrip_map (f : Char → Char)
    (hf : ∀ c, (f c).isWhitespace = c.isWhitespace) (l : List Char) :
    pyStrip (l.map f) = (pyStrip l).map f := by
  have hpf : (Char.isWhitespace ∘ f) = Char.isWhitespace := funext hf
  unfold pyStrip
  rw [List.rdropWhile, List.rdropWhile, List.dropWhile_map, hpf,
    ← List.map_reverse, List.dropWhile_map, hpf, List.map_reverse]

/-- Characters of the stripped list come from the original list. -/
theorem mem_of_mem_pyStrip {a : Char} {l : List Char} (h : a ∈ pyStrip l) :
    a ∈ l := by
  unfold pyStrip at h
  obtain ⟨t, ht⟩ := rdropWhile_append_decomp Char.isWhitespace
    (l.dropWhile Char.isWhitespace)
  have h1 : a ∈ l.dropWhile Char.isWhitespace := by
    rw [ht]
    exact List.mem_append.mpr (Or.inl h)
  exact List.dropWhile_subset _ h1

/-- The substitution table is idempotent on characters. -/
theorem rho_rho (c : Char) : rho (rho c) = rho c := by
  unfold rho
  by_cases h0 : c = '0'
  · subst h0; decide
  · by_cases h1 : c = '1'
    · subst h1; decide
    · by_cases h5 : c = '5'
      · subst h5; decide
      · rw [if_neg h0, if_neg h1, if_neg h5, if_neg h0, if_neg h1, if_neg h5]

/-- The substitution table preserves whitespace-ness of characters. -/
theorem isWhitespace_rho (c : Char) : (rho c).isWhitespace = c.isWhitespace := by
  unfold rho
  by_cases h0 : c = '0'
  · subst h0; decide
  · by_cases h1 : c = '1'
    · subst h1; decide
    · by_cases h5 : c = '5'
      · subst h5; decide
      · rw [if_neg h0, if_neg h1, if_neg h5]

/-- The substitution table sends lower-case-fixed characters to
lower-case-fixed characters. -/
theorem toLower_rho (c : Char) (h : c.toLower = c) : (rho c).toLower = rho c := by
  unfold rho
  by_cases h0 : c = '0'
  · subst h0; decide
  · by_cases h1 : c = '1'
    · subst h1; decide
    · by_cases h5 : c = '5'
      · subst h5; decide
      · rw [if_neg h0, if_neg h1, if_neg h5]
        exact h

/-- The token list the tesseract wrapper keeps is the stripped image of the
surviving tokens. -/
theorem tesseract_kept_eq (data : List (List Char × Int)) :
    (data.filterMap fun p =>
      let word := pyStrip p.1
      if 30 < p.2 ∧ word ≠ [] then some (word, p.2) else none) =
    (survivingTokens data).map fun p => (pyStrip p.1, p.2) := by
  unfold survivingTokens
  induction data with
  | nil => rfl
  | cons a as ih =>
    by_cases h : 30 < a.2 ∧ pyStrip a.1 ≠ [] <;>
      simp [List.filterMap_cons, List.filter_cons, h, ih]

/-! ## Claims -/

/-- C1: with a cloud credential configured and cloud confidence ≥ 0.8, the
arbitration result's source is the cloud engine and its extracted text is the
cloud engine's text verbatim. -/
theorem extract_accepts_high_confidence_cloud
    (gc : Except (List Char) (Option (List Char)))
    (tc : Except (List Char) (List (List Char × Int)))
    (h : (ocr_with_gemini true gc).confidence ≥ 8/10) :
    (extract_text_with_fallback true gc tc).ocr_source = "gemini" ∧
    (extract_text_with_fallback true gc tc).extracted_text =
      (ocr_with_gemini true gc).text := by
  unfold extract_text_with_fallback
  simp only [if_pos h]
  refine ⟨?_, ?_⟩ <;> rw [if_pos trivial] <;> split <;> rfl

/-- Witness for C1 at a concrete input: the cloud call returns "Hello015"
(length 8 > 5, heuristic confidence 0.95 ≥ 0.8). -/
theorem extract_accepts_high_confidence_cloud_witness :
    (ocr_with_gemini true (.ok (some "Hello015".toList))).confidence ≥ 8/10 ∧
    ((extract_text_with_fallback true (.ok (some "Hello015".toList))
        (.error [])).ocr_source = "gemini" ∧
     (extract_text_with_fallback true (.ok (some "Hello015".toList))
        (.error [])).extracted_text =
       (ocr_with_gemini true (.ok (some "Hello015".toList))).text) :=
  ⟨by show (95/100 : ℚ) ≥ 8/10; norm_num,
   extract_accepts_high_confidence_cloud _ _
     (by show (95/100 : ℚ) ≥ 8/10; norm_num)⟩

/-- C2: with a credential configured, cloud confidence in [0, 0.8) and
non-empty cloud text, the result takes the text, source and confidence of
whichever engine reports the higher confidence, ties going to the cloud
engine. -/
theorem extract_arbitrates_below_threshold
    (gc : Except (List Char) (Option (List Char)))
    (tc : Except (List Char) (List (List Char × Int)))
    (h0 : 0 ≤ (ocr_with_gemini true gc).confidence)
    (h1 : (ocr_with_gemini true gc).confidence < 8/10)
    (h2 : (ocr_with_gemini true gc).text ≠ []) :
    ((ocr_with_tesseract tc).confidence > (ocr_with_gemini true gc).confidence →
      (extract_text_with_fallback true gc tc).extracted_text =
          (ocr_with_tesseract tc).text ∧
        (extract_text_with_fallback true gc tc).ocr_source = "tesseract" ∧
        (extract_text_with_fallback true gc tc).confidence =
          (ocr_with_tesseract tc).confidence) ∧
    ((ocr_with_tesseract tc).confidence ≤ (ocr_with_gemini true gc).confidence →
      (extract_text_with_fallback true gc tc).extracted_text =
          (ocr_with_gemini true gc).text ∧
        (extract_text_with_fallback true gc tc).ocr_source = "gemini" ∧
        (extract_text_with_fallback true gc tc).confidence =
          (ocr_with_gemini true gc).confidence) := by
  unfold extract_text_with_fallback
  simp only [if_neg (not_le.mpr h1), if_pos h2]
  constructor <;> intro h3
  · rw [if_pos trivial, if_pos h3]
    refine ⟨?_, ?_, ?_⟩ <;> split <;> rfl
  · rw [if_pos trivial, if_neg (not_lt.mpr h3)]
    refine ⟨?_, ?_, ?_⟩ <;> split <;> rfl

/-- Witness for C2 at a concrete input: cloud returns "abc" (confidence 0.7),
tesseract one token "word" at 80 (confidence 0.8), so tesseract wins. -/
theorem extract_arbitrates_below_threshold_witness :
    (0 ≤ (ocr_with_gemini true (.ok (some "abc".toList))).confidence ∧
     (ocr_with_gemini true (.ok (some "abc".toList))).confidence < 8/10 ∧
     (ocr_with_gemini true (.ok (some "abc".toList))).text ≠ [] ∧
     (ocr_with_tesseract (.ok [("word".toList, 80)])).confidence >
       (ocr_with_gemini true (.ok (some "abc".toList))).confidence) ∧
    ((extract_text_with_fallback true (.ok (some "abc".toList))
        (.ok [("word".toList, 80)])).extracted_text =
       (ocr_with_tesseract (.ok [("word".toList, 80)])).text ∧
     (extract_text_with_fallback true (.ok (some "abc".toList))
        (.ok [("word".toList, 80)])).ocr_source = "tesseract" ∧
     (extract_text_with_fallback true (.ok (some "abc".toList))
        (.ok [("word".toList, 80)])).confidence =
       (ocr_with_tesseract (.ok [("word".toList, 80)])).confidence) :=
  ⟨⟨by show (0 : ℚ) ≤ 7/10; norm_num,
    by show (7/10 : ℚ) < 8/10; norm_num,
    by decide,
    by
      show (7/10 : ℚ) < (List.map (fun (c : Int) => (c : ℚ)) [(80 : Int)]).sum /
        ((([(80 : Int)] : List Int).length : ℚ)) / 100
      norm_num⟩,
   (extract_arbitrates_below_threshold _ _
      (by show (0 : ℚ) ≤ 7/10; norm_num)
      (by show (7/10 : ℚ) < 8/10; norm_num) (by decide)).1
     (by
       show (7/10 : ℚ) < (List.map (fun (c : Int) => (c : ℚ)) [(80 : Int)]).sum /
         ((([(80 : Int)] : List Int).length : ℚ)) / 100
       norm_num)⟩

/-- C3 counterexample: on tokens ("a", 30) and (" ", 50) the code discards
both — confidence 30 is not strictly above the cutoff, and " " strips to
empty — yielding confidence 0, while the claim as stated keeps both and
predicts confidence 0.4. -/
theorem ocr_with_tesseract_boundary_counterexample :
    (ocr_with_tesseract (.ok [(['a'], 30), ([' '], 50)])).confidence = 0 ∧
    tesseractConfidenceClaimC3 [(['a'], 30), ([' '], 50)] = 2/5 ∧
    ((0 : ℚ) ≠ 2/5) := by
  refine ⟨?_, ?_, by norm_num⟩
  · show (0 : ℚ) / 100 = 0
    norm_num
  · show ((List.map (fun (p : List Char × Int) => (p.2 : ℚ))
        [(['a'], (30 : Int)), ([' '], 50)]).sum /
        ((([(['a'], (30 : Int)), ([' '], 50)] : List (List Char × Int)).length :
          ℚ))) / 100 = 2/5
    norm_num

/-- C3 as amended: the wrapper discards exactly the tokens whose confidence
is not strictly greater than 30 or whose whitespace-stripped text is empty;
survivors contribute their stripped text, and the confidence is the mean
confidence of the survivors divided by 100, or 0.0 if none survive. -/
theorem ocr_with_tesseract_survivor_characterization
    (data : List (List Char × Int)) :
    (ocr_with_tesseract (.ok data)).text =
      List.intercalate [' '] ((survivingTokens data).map fun p => pyStrip p.1) ∧
    (ocr_with_tesseract (.ok data)).confidence =
      (if survivingTokens data = [] then 0
       else ((survivingTokens data).map fun p => ((p.2 : ℚ))).sum /
         (survivingTokens data).length) / 100 := by
  simp only [ocr_with_tesseract]
  rw [tesseract_kept_eq]
  constructor
  · rw [List.map_map]
    rfl
  · by_cases h : survivingTokens data = []
    · simp [h]
    · rw [if_neg (by simpa using h), if_neg h]
      simp only [List.map_map, List.length_map]
      congr 2

/-- C4 counterexample: for cloud text "Hello015" the normalized text the code
produces is "hellools" (each of '0','1','5' replaced in place), not the
spec's "hello ols". -/
theorem extract_hello015_cleaned_counterexample :
    (extract_text_with_fallback true (.ok (some "Hello015".toList))
      (.error [])).cleaned_text = "hellools".toList ∧
    "hellools".toList ≠ "hello ols".toList := by
  have hge : (ocr_with_gemini true
      (.ok (some "Hello015".toList))).confidence ≥ 8/10 := by
    show (95/100 : ℚ) ≥ 8/10
    norm_num
  refine ⟨?_, by decide⟩
  unfold extract_text_with_fallback
  simp only [if_pos hge]
  rw [if_pos trivial]
  split <;> rfl

/-- C4 as amended: cloud returning "Hello015" with a credential configured is
accepted as source "gemini" with confidence 0.95 and no advisory note, and
the cleaned text is "hellools". -/
theorem extract_hello015_result :
    extract_text_with_fallback true (.ok (some "Hello015".toList)) (.error []) =
      { extracted_text := "Hello015".toList, cleaned_text := "hellools".toList,
        confidence := 95/100, ocr_source := "gemini", notes := "" } := by
  have hge : (ocr_with_gemini true
      (.ok (some "Hello015".toList))).confidence ≥ 8/10 := by
    show (95/100 : ℚ) ≥ 8/10
    norm_num
  have hlt : ¬((ocr_with_gemini true
      (.ok (some "Hello015".toList))).confidence < 5/10) := by
    show ¬((95/100 : ℚ) < 5/10)
    norm_num
  simp only [extract_text_with_fallback, if_pos hge]
  rw [if_pos trivial, if_neg hlt]
  rfl

/-- C5: without a cloud credential, the result always has source "tesseract",
mirrors the local engine's text and confidence, and is independent of the
cloud call (the cloud engine is never consulted). -/
theorem extract_local_only_without_credential
    (gc gc' : Except (List Char) (Option (List Char)))
    (tc : Except (List Char) (List (List Char × Int))) :
    (extract_text_with_fallback false gc tc).ocr_source = "tesseract" ∧
    (extract_text_with_fallback false gc tc).extracted_text =
      (ocr_with_tesseract tc).text ∧
    (extract_text_with_fallback false gc tc).confidence =
      (ocr_with_tesseract tc).confidence ∧
    extract_text_with_fallback false gc tc =
      extract_text_with_fallback false gc' tc := by
  have hk : ¬(false = true) := by simp
  simp only [extract_text_with_fallback, if_neg hk]
  refine ⟨?_, ?_, ?_, ?_⟩ <;> first | (split <;> rfl) | trivial

/-- C6: an exception in either engine call is absorbed by that wrapper as
text "" with confidence 0.0, and `extract_text_with_fallback` still returns a
well-formed record (both engines failing yields the empty, zero-confidence
local-source result with the advisory note). -/
theorem engine_exceptions_degrade_gracefully (e₁ e₂ : List Char) (k : Bool) :
    (ocr_with_gemini true (.error e₁)).text = [] ∧
    (ocr_with_gemini true (.error e₁)).confidence = 0 ∧
    (ocr_with_tesseract (.error e₂)).text = [] ∧
    (ocr_with_tesseract (.error e₂)).confidence = 0 ∧
    extract_text_with_fallback k (.error e₁) (.error e₂) =
      { extracted_text := [], cleaned_text := [], confidence := 0,
        ocr_source := "tesseract",
        notes := "low_confidence: result may be inaccurate" } := by
  refine ⟨rfl, rfl, rfl, rfl, ?_⟩
  cases k <;>
    norm_num [extract_text_with_fallback, ocr_with_gemini, ocr_with_tesseract,
      cleanText, pyStrip, pyLower, pyReplaceChar, List.rdropWhile]

/-- C7: the advisory note is attached exactly when the final confidence is
strictly below 0.5; a confidence of at least 0.5 leaves the notes empty. -/
theorem low_confidence_note_iff (k : Bool)
    (gc : Except (List Char) (Option (List Char)))
    (tc : Except (List Char) (List (List Char × Int))) :
    ((extract_text_with_fallback k gc tc).notes =
        "low_confidence: result may be inaccurate" ↔
      (extract_text_with_fallback k gc tc).confidence < 5/10) ∧
    ((extract_text_with_fallback k gc tc).confidence ≥ 5/10 →
      (extract_text_with_fallback k gc tc).notes = "") := by
  simp only [extract_text_with_fallback]
  split_ifs <;> simp_all

/-- C8: the post-processing normalization (lowercase, strip, then the fixed
substitutions '0'→'o', '1'→'l', '5'→'s') is idempotent. -/
theorem cleanText_idempotent (t : List Char) :
    cleanText (cleanText t) = cleanText t := by
  have hlower : pyLower (cleanText t) = cleanText t := by
    rw [cleanText_eq]
    unfold pyLower
    rw [List.map_map]
    refine List.map_congr_left fun c hc => ?_
    have hc' : c ∈ pyLower t := mem_of_mem_pyStrip hc
    obtain ⟨d, _, rfl⟩ := List.mem_map.mp hc'
    exact toLower_rho _ (toLower_toLower d)
  have hstrip : pyStrip (cleanText t) = cleanText t := by
    rw [cleanText_eq, pyStrip_map rho isWhitespace_rho, pyStrip_idempotent]
  calc cleanText (cleanText t)
      = (pyStrip (pyLower (cleanText t))).map rho := cleanText_eq _
    _ = (pyStrip (cleanText t)).map rho := by rw [hlower]
    _ = (cleanText t).map rho := by rw [hstrip]
    _ = cleanText t := by
        rw [cleanText_eq, List.map_map]
        exact List.map_congr_left fun c _ => rho_rho c

/-- C9 counterexample: with the model unavailable (a failure), the classifier
wrapper returns the label "ERROR", not "UNKNOWN". -/
theorem predict_failure_counterexample :
    predict_stockcode_from_image false none (.error []) = ("ERROR", 0) ∧
    ("ERROR" : String) ≠ "UNKNOWN" :=
  ⟨rfl, by decide⟩

/-- C9 as amended: every failure path (model missing, label map missing, or
inference raising) returns the sentinel ("ERROR", 0.0); "UNKNOWN" is returned
only as the label when the predicted class id is absent from the label map,
and then with the model's confidence. -/
theorem predict_failure_returns_error_sentinel
    (lm : Option (List (Nat × String)))
    (inf : Except (List Char) (List ℚ))
    (lm' : List (Nat × String)) (e : List Char) :
    predict_stockcode_from_image false lm inf = ("ERROR", 0) ∧
    predict_stockcode_from_image true none inf = ("ERROR", 0) ∧
    predict_stockcode_from_image true (some lm') (.error e) = ("ERROR", 0) ∧
    predict_stockcode_from_image true (some []) (.ok [1/2]) =
      ("UNKNOWN", 1/2) := by
  refine ⟨rfl, rfl, rfl, rfl⟩

/-- C10: the result's source field is always one of the two engines — the
initial "none" placeholder is overwritten on every path. -/
theorem extract_source_always_set (k : Bool)
    (gc : Except (List Char) (Option (List Char)))
    (tc : Except (List Char) (List (List Char × Int))) :
    (extract_text_with_fallback k gc tc).ocr_source = "gemini" ∨
    (extract_text_with_fallback k gc tc).ocr_source = "tesseract" := by
  simp only [extract_text_with_fallback]
  split_ifs <;> simp
